import Mathlib

/-!
Verification of the Emotion_Detection request pipeline.

The repository consists of three Flask variants of an emotion-detection
service:

* `app.py` (main): a `/capture-emotion` handler with upload / camera source
  resolution, timestamped temp files, a 3-attempt frame-read loop,
  `DeepFace.analyze` with `enforce_detection=False`, sad/angry threshold
  overrides on the dominant label, and `try/except/finally` temp-file cleanup.
* `Other/app.py`: a minimal `/capture_emotion` camera-only variant with a
  fixed temp-file name and no threshold overrides.
* `Other/app1.py`: like the previous variant but with local Haar-cascade face
  detection, face cropping and gamma enhancement before analysis.

Each handler is shallowly embedded as a total function from an environment
(oracles for the request shape, the clock, the camera, OpenCV codecs and
`DeepFace`) to an `Outcome` recording the HTTP status, the JSON body, the
files existing on return, and the ordered trace of external effects.
-/

namespace EmotionDetection

/-- OpenCV capture-backend selector: `cv2.CAP_DSHOW` on Windows, the default
backend otherwise (`cv2.VideoCapture(0)` with a single argument). -/
inductive CapBackend where
  | dshow
  | any
  deriving DecidableEq, Repr

/-- The keyword arguments of a `DeepFace.analyze` call site. -/
structure AnalyzeArgs where
  actions : List String
  detector_backend : String
  enforce_detection : Bool
  deriving DecidableEq, Repr

/-- One emotion-analysis result (`analysis[0]`): the per-category score
mapping (key `emotion`) and the library-chosen dominant category.  Scores
are modelled as rationals. -/
structure FaceAnalysis where
  emotion : List (String × ℚ)
  dominant_emotion : String
  deriving DecidableEq, Repr

/-- External effects performed by a handler, in order of occurrence. -/
inductive Ev where
  | openCamera (index : ℕ) (backend : CapBackend)
  | readFrame (attempt : ℕ)
  | sleep (seconds : ℚ)
  | releaseCamera
  | saveUpload (path : String)
  | imwrite (path : String)
  | analyzeCall (path : String) (args : AnalyzeArgs)
  | removeFile (path : String)
  deriving DecidableEq, Repr

/-- JSON values occurring in the handlers' response bodies. -/
inductive JVal where
  | s (v : String)
  | dict (v : List (String × ℚ))
  deriving DecidableEq, Repr

/-- Result of one handler invocation: HTTP status, JSON object body (field
name / value pairs in order), the files existing when the handler returns,
and the trace of external effects. -/
structure Outcome where
  status : ℕ
  body : List (String × JVal)
  fs : List String
  events : List Ev
  deriving DecidableEq, Repr

/-- Writing a file creates the path when absent; `cv2.imwrite` and
`file.save` overwrite an existing file, leaving existence unchanged. -/
def fsWrite (fs : List String) (p : String) : List String :=
  if p ∈ fs then fs else p :: fs

/-- `os.remove p`: afterwards `p` no longer exists. -/
def fsRemove (fs : List String) (p : String) : List String :=
  fs.filter (fun q => decide (q ≠ p))

/-- `d[k]` on a Python `dict` modelled as an association list: the value,
or the `KeyError` Python raises on a missing key. -/
def dictGet (d : List (String × ℚ)) (k : String) : Except String ℚ :=
  match d.lookup k with
  | some v => Except.ok v
  | none => Except.error ("KeyError: " ++ k)

/-- `analysis[0]`: the first element of the result list, or the `IndexError`
Python raises when the list is empty. -/
def getFirst (analysis : List FaceAnalysis) : Except String FaceAnalysis :=
  match analysis with
  | [] => Except.error "list index out of range"
  | a :: _ => Except.ok a

/-- `app.py` lines 185-189: override the dominant label when the sad score
exceeds 30, else when the angry score exceeds 30, else keep the library's
choice.  Evaluation order matters: the angry score is only looked up when
the sad branch is not taken, and a missing key raises (propagating to the
surrounding `except`). -/
def overrideDominant (emotions : List (String × ℚ)) (dom : String) :
    Except String String := do
  let sad ← dictGet emotions "sad"
  if 30 < sad then
    pure "sad"
  else
    let angry ← dictGet emotions "angry"
    if 30 < angry then pure "angry" else pure dom

/-- The `DeepFace.analyze` keyword arguments at `app.py` lines 175-180. -/
def appAnalyzeArgs : AnalyzeArgs :=
  { actions := ["emotion"], detector_backend := "mtcnn", enforce_detection := false }

/-- The `DeepFace.analyze` keyword arguments at `Other/app.py` line 28: no
`enforce_detection` keyword is passed, so the library default
`enforce_detection=True` applies. -/
def otherAnalyzeArgs : AnalyzeArgs :=
  { actions := ["emotion"], detector_backend := "mtcnn", enforce_detection := true }

/-- The `DeepFace.analyze` keyword arguments at `Other/app1.py` line 54: no
`enforce_detection` keyword is passed, so the library default
`enforce_detection=True` applies. -/
def other1AnalyzeArgs : AnalyzeArgs :=
  { actions := ["emotion"], detector_backend := "mtcnn", enforce_detection := true }

/-- Modelled from the spec: the analyzer is an external collaborator whose
exact behaviour is out of scope; the spec states that with face-detection
enforcement disabled "non-face or ambiguous images still produce a
best-effort score rather than a hard failure".  This predicate says whether
an `analyze` call on an image with the given face-presence returns scores
(rather than raising). -/
def analyzerReturnsScores (args : AnalyzeArgs) (hasFace : Bool) : Bool :=
  hasFace || !args.enforce_detection

/-- `f"uploaded_image_{int(time.time())}.jpg"` (`app.py` line 140). -/
def uploadedImagePath (now : ℤ) : String :=
  "uploaded_image_" ++ toString now ++ ".jpg"

/-- `f"captured_image_{int(time.time())}.jpg"` (`app.py` line 170). -/
def capturedImagePath (now : ℤ) : String :=
  "captured_image_" ++ toString now ++ ".jpg"

/-- `"captured_image.jpg"` (`Other/app.py` line 23, `Other/app1.py` line 49):
a fixed path that does not depend on the request. -/
def otherImagePath : String := "captured_image.jpg"

/-- Environment for one `/capture-emotion` request against `app.py`: the
request shape, the clock, and oracles for the camera, OpenCV codecs and
`DeepFace`.  `Frame` is the type of decoded image frames, opaque to the
handler's own logic. -/
structure Env (Frame : Type) where
  /-- `platform.system() == 'Windows'`. -/
  isWindows : Bool
  /-- `request.method == 'POST' and 'image' in request.files`. -/
  postWithFile : Bool
  /-- `int(time.time())` at request-handling time. -/
  now : ℤ
  /-- `cv2.imread(image_path)` on the saved upload; `none` models the `None`
  OpenCV returns on undecodable input. -/
  uploadRead : Option Frame
  /-- `webcam.isOpened()`. -/
  camOpened : Bool
  /-- `webcam.read()` on the given attempt index: the `ret` flag and the
  frame (`none` models `None`). -/
  camRead : ℕ → Bool × Option Frame
  /-- `DeepFace.analyze(img_path=p, ...)`: the result list, or the message
  of the exception the call raises. -/
  analyze : String → Except String (List FaceAnalysis)
  /-- `cv2.imencode('.jpg', frame)[1]`: the encoded JPEG buffer. -/
  imencode : Frame → List ℕ
  /-- `base64.b64encode(buffer).decode('utf-8')`. -/
  b64encode : List ℕ → String
  /-- Message of the exception `cv2.imencode` raises when the upload could
  not be decoded (the `frame` variable is `None`). -/
  encodeNoneMsg : String
  /-- Files existing in the working directory when the request arrives. -/
  initFs : List String

/-- The frame-read loop of `app.py` lines 154-162, over the remaining
attempt indices: read, break on `ret and frame is not None`, else log,
sleep 0.5 s and retry; `acc` is the current value of the `frame` variable
(the previous read's frame, `None` initially).  Returns the final value of
`frame` and the events of the loop. -/
def frameLoop {Frame : Type} (camRead : ℕ → Bool × Option Frame) :
    List ℕ → Option Frame → Option Frame × List Ev
  | [], acc => (acc, [])
  | a :: rest, _ =>
    let r := camRead a
    if r.1 && r.2.isSome then (r.2, [Ev.readFrame a])
    else
      let next := frameLoop camRead rest r.2
      (next.1, Ev.readFrame a :: Ev.sleep (1 / 2) :: next.2)

/-- The success body assembled at `app.py` lines 195-199. -/
def successBody (dom : String) (em : List (String × ℚ)) (img : String) :
    List (String × JVal) :=
  [("dominant_emotion", JVal.s dom), ("emotions", JVal.dict em),
    ("captured_image", JVal.s img)]

/-- The computation inside the inner `try` of `app.py` lines 173-199:
analyze the temp file, take `analysis[0]`, apply the threshold overrides,
base64-encode the frame and assemble the success body; `Except.error` is an
exception propagating to the inner `except`. -/
def analyzeResult {Frame : Type} (env : Env Frame) (image_path : String)
    (frame : Option Frame) : Except String (List (String × JVal)) := do
  let analysis ← env.analyze image_path
  let a ← getFirst analysis
  let emotions := a.emotion
  let dom ← overrideDominant emotions a.dominant_emotion
  match frame with
  | none => Except.error env.encodeNoneMsg
  | some f =>
    let img_base64 := env.b64encode (env.imencode f)
    Except.ok (successBody dom emotions img_base64)

/-- The inner `try/except/finally` of `app.py` lines 173-208: any exception
becomes the 500 "Error during analysis" response; the `finally` removes the
temp file when it exists. -/
def analyzeBlock {Frame : Type} (env : Env Frame) (image_path : String)
    (frame : Option Frame) (fs : List String) (evs : List Ev) : Outcome :=
  let result := analyzeResult env image_path frame
  let evs1 := evs ++ [Ev.analyzeCall image_path appAnalyzeArgs]
  let fs1 := if image_path ∈ fs then fsRemove fs image_path else fs
  let evs2 := evs1 ++ (if image_path ∈ fs then [Ev.removeFile image_path] else [])
  match result with
  | Except.ok body => { status := 200, body := body, fs := fs1, events := evs2 }
  | Except.error e =>
    { status := 500, body := [("error", JVal.s ("Error during analysis: " ++ e))],
      fs := fs1, events := evs2 }

/-- The `/capture-emotion` handler of `app.py` (lines 133-212). -/
def capture_emotion {Frame : Type} (env : Env Frame) : Outcome :=
  if env.postWithFile then
    let image_path := uploadedImagePath env.now
    let fs1 := fsWrite env.initFs image_path
    analyzeBlock env image_path env.uploadRead fs1 [Ev.saveUpload image_path]
  else
    let backend := if env.isWindows then CapBackend.dshow else CapBackend.any
    let evs0 := [Ev.openCamera 0 backend]
    if env.camOpened then
      let lp := frameLoop env.camRead [0, 1, 2] none
      let evs1 := evs0 ++ lp.2 ++ [Ev.releaseCamera]
      match lp.1 with
      | none =>
        { status := 500,
          body := [("error", JVal.s "Failed to capture frame after multiple attempts")],
          fs := env.initFs, events := evs1 }
      | some f =>
        let image_path := capturedImagePath env.now
        let fs1 := fsWrite env.initFs image_path
        analyzeBlock env image_path (some f) fs1 (evs1 ++ [Ev.imwrite image_path])
    else
      { status := 500, body := [("error", JVal.s "Failed to open camera")],
        fs := env.initFs, events := evs0 }

/-- Environment for one `/capture_emotion` request against `Other/app.py`. -/
structure OEnv (Frame : Type) where
  /-- The `ret` flag of `webcam.read()` (line 17). -/
  camRet : Bool
  /-- The frame `webcam.read()` returns; used only when `ret` is true (on a
  failed read the handler returns before touching `frame`). -/
  camFrame : Frame
  /-- `DeepFace.analyze(img_path=p, ...)` (line 28). -/
  analyze : String → Except String (List FaceAnalysis)
  /-- `cv2.imencode('.jpg', frame)[1]`. -/
  imencode : Frame → List ℕ
  /-- `base64.b64encode(buffer).decode('utf-8')`. -/
  b64encode : List ℕ → String
  /-- Files existing in the working directory when the request arrives. -/
  initFs : List String

/-- The `try` body shared by `Other/app.py` (lines 27-34) and
`Other/app1.py` (lines 53-60): analyze the temp file, take `analysis[0]`,
and pair the label and scores with the base64 image string (whose encoding
is a pure oracle, so it may be passed in directly). -/
def analyzeLegacy (analyze : String → Except String (List FaceAnalysis))
    (img_base64 : String) : Except String (String × List (String × ℚ) × String) := do
  let analysis ← analyze otherImagePath
  let a ← getFirst analysis
  Except.ok (a.dominant_emotion, a.emotion, img_base64)

/-- The `/capture_emotion` handler of `Other/app.py` (lines 13-50).  Note
that on the analysis-error path (lines 36-38) the handler releases the
camera and returns without reaching the cleanup at lines 40-42. -/
def other_capture_emotion {Frame : Type} (env : OEnv Frame) : Outcome :=
  let evs0 := [Ev.openCamera 0 CapBackend.any, Ev.readFrame 0]
  if env.camRet then
    let image_path := otherImagePath
    let fs1 := fsWrite env.initFs image_path
    let evs1 := evs0 ++ [Ev.imwrite image_path, Ev.analyzeCall image_path otherAnalyzeArgs]
    match analyzeLegacy env.analyze (env.b64encode (env.imencode env.camFrame)) with
    | Except.error e =>
      { status := 500, body := [("error", JVal.s ("Error during analysis: " ++ e))],
        fs := fs1, events := evs1 ++ [Ev.releaseCamera] }
    | Except.ok r =>
      let fs2 := if image_path ∈ fs1 then fsRemove fs1 image_path else fs1
      let evs2 := evs1 ++ (if image_path ∈ fs1 then [Ev.removeFile image_path] else [])
        ++ [Ev.releaseCamera]
      { status := 200,
        body := [("dominant_emotion", JVal.s r.1), ("emotion_scores", JVal.dict r.2.1),
          ("captured_image", JVal.s r.2.2)],
        fs := fs2, events := evs2 }
  else
    { status := 500, body := [("error", JVal.s "Failed to capture image")],
      fs := env.initFs, events := evs0 ++ [Ev.releaseCamera] }

/-- A face rectangle `(x, y, w, h)` as returned by `detectMultiScale`. -/
structure FaceRect where
  x : ℕ
  y : ℕ
  w : ℕ
  h : ℕ
  deriving DecidableEq, Repr

/-- Environment for one `/capture_emotion` request against `Other/app1.py`. -/
structure O1Env (Frame : Type) where
  /-- The `ret` flag of `webcam.read()` (line 20). -/
  camRet : Bool
  /-- The frame `webcam.read()` returns; used only when `ret` is true. -/
  camFrame : Frame
  /-- `cv2.cvtColor(frame, cv2.COLOR_BGR2GRAY)` (line 26). -/
  cvtGray : Frame → Frame
  /-- `face_cascade.detectMultiScale(gray, scaleFactor=1.1, minNeighbors=5,
  minSize=(30, 30))` on the given grayscale frame (line 30). -/
  detect : Frame → List FaceRect
  /-- `frame[y:y+h, x:x+w]`: crop the frame to a rectangle (line 38). -/
  crop : Frame → FaceRect → Frame
  /-- `cv2.LUT(face, lookup_table)` with the gamma-1.5 lookup table (lines
  42-46; the table computation is floating-point arithmetic, abstracted into
  this oracle). -/
  gammaLUT : Frame → Frame
  /-- `DeepFace.analyze(img_path=p, ...)` (line 54). -/
  analyze : String → Except String (List FaceAnalysis)
  /-- `cv2.imencode('.jpg', enhanced_face)[1]`. -/
  imencode : Frame → List ℕ
  /-- `base64.b64encode(buffer).decode('utf-8')`. -/
  b64encode : List ℕ → String
  /-- Files existing in the working directory when the request arrives. -/
  initFs : List String

/-- The `/capture_emotion` handler of `Other/app1.py` (lines 14-76): read a
frame, run Haar-cascade face detection on the grayscale frame, return 400
when no face is found, otherwise crop the first face, gamma-enhance it,
persist and analyze it. -/
def other1_capture_emotion {Frame : Type} (env : O1Env Frame) : Outcome :=
  let evs0 := [Ev.openCamera 0 CapBackend.any, Ev.readFrame 0]
  if env.camRet then
    let gray := env.cvtGray env.camFrame
    match env.detect gray with
    | [] =>
      { status := 400, body := [("error", JVal.s "No face detected")],
        fs := env.initFs, events := evs0 ++ [Ev.releaseCamera] }
    | rect :: _ =>
      let face := env.crop env.camFrame rect
      let enhanced_face := env.gammaLUT face
      let image_path := otherImagePath
      let fs1 := fsWrite env.initFs image_path
      let evs1 := evs0 ++ [Ev.imwrite image_path, Ev.analyzeCall image_path other1AnalyzeArgs]
      match analyzeLegacy env.analyze (env.b64encode (env.imencode enhanced_face)) with
      | Except.error e =>
        { status := 500, body := [("error", JVal.s ("Error during analysis: " ++ e))],
          fs := fs1, events := evs1 ++ [Ev.releaseCamera] }
      | Except.ok r =>
        let fs2 := if image_path ∈ fs1 then fsRemove fs1 image_path else fs1
        let evs2 := evs1 ++ (if image_path ∈ fs1 then [Ev.removeFile image_path] else [])
          ++ [Ev.releaseCamera]
        { status := 200,
          body := [("dominant_emotion", JVal.s r.1), ("emotion_scores", JVal.dict r.2.1),
            ("captured_image", JVal.s r.2.2)],
          fs := fs2, events := evs2 }
  else
    { status := 500, body := [("error", JVal.s "Failed to capture image")],
      fs := env.initFs, events := evs0 ++ [Ev.releaseCamera] }

/-- An image as the `/analyze-emotion` pipeline sees it: a channel count and
an opaque pixel payload. -/
structure Img where
  channels : ℕ
  payload : ℕ
  deriving DecidableEq, Repr

/-- Modelled from the spec: no `/analyze-emotion` handler exists under
`src/` (the spec's §6 lists the endpoint in the union of variants); its
route as the spec gives it. -/
def analyzeEmotionRoute : String := "/analyze-emotion"

/-- Modelled from the spec: the HTTP methods of the missing
`/analyze-emotion` endpoint ("`POST /analyze-emotion`"). -/
def analyzeEmotionMethods : List String := ["POST"]

/-- Modelled from the spec: strip the optional data-URI scheme marker from
the missing `/analyze-emotion` handler's image string ("optionally prefixed
with a data-URI scheme marker that must be stripped before decoding"): when
the string starts with `data:`, drop everything up to and including the
first comma. -/
def stripDataURI (s : String) : String :=
  if s.data.take 5 = ("data:").data then
    String.mk ((s.data.dropWhile (fun c => decide (c ≠ ','))).drop 1)
  else s

/-- Modelled from the spec: the missing `/analyze-emotion` handler's channel
normalisation ("convert 4-channel (alpha) images to 3-channel before
persisting, since the analyzer expects opaque color images"). -/
def toThreeChannel (img : Img) : Img :=
  if img.channels = 4 then { img with channels := 3 } else img

/-- Environment for one `/analyze-emotion` request, modelled from the spec
(the handler itself is missing from `src/`). -/
structure AEnv where
  /-- The fields of the request's JSON body, when it carries a JSON object. -/
  jsonBody : Option (List (String × String))
  /-- Base64 decoding plus image decoding; `none` on invalid data. -/
  decodeImage : String → Option Img
  /-- The external analyzer applied to the persisted image. -/
  analyzeImg : Img → Except String FaceAnalysis

/-- Modelled from the spec: the missing `/analyze-emotion` handler — read
the `image` field of the JSON body, strip any data-URI prefix,
base64-decode, convert 4-channel images to 3-channel, persist and analyze,
and return `{dominant_emotion, emotions}` with 200 on success or `{error}`
with 400/500 otherwise. -/
def analyze_emotion (env : AEnv) : ℕ × List (String × JVal) :=
  match env.jsonBody.bind (fun b => b.lookup "image") with
  | none => (400, [("error", JVal.s "No image provided")])
  | some s =>
    match env.decodeImage (stripDataURI s) with
    | none => (400, [("error", JVal.s "Invalid image data")])
    | some img =>
      let persisted := toThreeChannel img
      match env.analyzeImg persisted with
      | Except.error e => (500, [("error", JVal.s e)])
      | Except.ok a =>
        (200, [("dominant_emotion", JVal.s a.dominant_emotion),
          ("emotions", JVal.dict a.emotion)])

/-- Predicate selecting camera-read events from a trace. -/
def isRead (e : Ev) : Bool :=
  match e with
  | Ev.readFrame _ => true
  | _ => false

theorem mem_fsWrite (fs : List String) (p : String) : p ∈ fsWrite fs p := by
  unfold fsWrite
  split
  · assumption
  · exact List.mem_cons_self _ _

theorem not_mem_fsRemove (fs : List String) (p : String) : p ∉ fsRemove fs p := by
  simp [fsRemove]

theorem analyzeBlock_fs {Frame : Type} (env : Env Frame) (p : String)
    (frame : Option Frame) (fs : List String) (evs : List Ev) :
    (analyzeBlock env p frame fs evs).fs = if p ∈ fs then fsRemove fs p else fs := by
  unfold analyzeBlock
  cases analyzeResult env p frame <;> rfl

theorem analyzeBlock_events {Frame : Type} (env : Env Frame) (p : String)
    (frame : Option Frame) (fs : List String) (evs : List Ev) :
    (analyzeBlock env p frame fs evs).events =
      evs ++ [Ev.analyzeCall p appAnalyzeArgs] ++
        (if p ∈ fs then [Ev.removeFile p] else []) := by
  unfold analyzeBlock
  cases analyzeResult env p frame <;> rfl

theorem analyzeBlock_shape {Frame : Type} (env : Env Frame) (p : String)
    (frame : Option Frame) (fs : List String) (evs : List Ev) :
    ((analyzeBlock env p frame fs evs).status = 200 ∧
      Except.ok (analyzeBlock env p frame fs evs).body = analyzeResult env p frame) ∨
    ((analyzeBlock env p frame fs evs).status = 500 ∧
      ∃ m, (analyzeBlock env p frame fs evs).body = [("error", JVal.s m)]) := by
  unfold analyzeBlock
  cases h : analyzeResult env p frame with
  | ok b => exact Or.inl ⟨rfl, rfl⟩
  | error e => exact Or.inr ⟨rfl, "Error during analysis: " ++ e, rfl⟩

@[simp]
theorem except_bind_ok {α β γ : Type} (a : α) (f : α → Except γ β) :
    (Except.ok a : Except γ α) >>= f = f a := rfl

@[simp]
theorem except_bind_error {α β γ : Type} (e : γ) (f : α → Except γ β) :
    (Except.error e : Except γ α) >>= f = Except.error e := rfl

@[simp]
theorem except_pure {α γ : Type} (a : α) :
    (pure a : Except γ α) = Except.ok a := rfl

theorem analyzeResult_ok {Frame : Type} (env : Env Frame) (p : String)
    (frame : Option Frame) (b : List (String × JVal))
    (h : analyzeResult env p frame = Except.ok b) :
    ∃ (a : FaceAnalysis) (rest : List FaceAnalysis) (dom : String) (f : Frame),
      env.analyze p = Except.ok (a :: rest) ∧
      overrideDominant a.emotion a.dominant_emotion = Except.ok dom ∧
      frame = some f ∧
      b = successBody dom a.emotion (env.b64encode (env.imencode f)) := by
  unfold analyzeResult at h
  cases hA : env.analyze p with
  | error e => rw [hA] at h; simp at h
  | ok l =>
    rw [hA] at h
    simp only [except_bind_ok] at h
    cases l with
    | nil => simp [getFirst] at h
    | cons a rest =>
      simp only [getFirst, except_bind_ok] at h
      cases hD : overrideDominant a.emotion a.dominant_emotion with
      | error e => rw [hD] at h; simp at h
      | ok dom =>
        rw [hD] at h
        simp only [except_bind_ok] at h
        cases frame with
        | none => simp at h
        | some f =>
          simp only [Except.ok.injEq] at h
          exact ⟨a, rest, dom, f, rfl, hD, rfl, h.symm⟩

theorem overrideDominant_eq (em : List (String × ℚ)) (dom : String) (s ag : ℚ)
    (hs : em.lookup "sad" = some s) (hag : em.lookup "angry" = some ag) :
    overrideDominant em dom =
      Except.ok (if 30 < s then "sad" else if 30 < ag then "angry" else dom) := by
  unfold overrideDominant dictGet
  rw [hs, hag]
  by_cases h : (30 : ℚ) < s
  · simp [h, Except.bind]
  · by_cases h2 : (30 : ℚ) < ag <;> simp [h, h2, Except.bind]

theorem frameLoop_events_mem {Frame : Type} (camRead : ℕ → Bool × Option Frame)
    (l : List ℕ) : ∀ (acc : Option Frame) (e : Ev), e ∈ (frameLoop camRead l acc).2 →
      (∃ a, e = Ev.readFrame a) ∨ e = Ev.sleep (1 / 2) := by
  induction l with
  | nil => intro acc e h; simp [frameLoop] at h
  | cons a rest ih =>
    intro acc e h
    rw [frameLoop] at h
    by_cases hc : ((camRead a).1 && (camRead a).2.isSome) = true
    · simp only [hc, if_true, List.mem_singleton] at h
      exact Or.inl ⟨a, h⟩
    · simp only [hc, if_false, Bool.false_eq_true, List.mem_cons] at h
      rcases h with h | h | h
      · exact Or.inl ⟨a, h⟩
      · exact Or.inr h
      · exact ih _ e h

theorem frameLoop_readCount {Frame : Type} (camRead : ℕ → Bool × Option Frame)
    (l : List ℕ) : ∀ acc : Option Frame,
      ((frameLoop camRead l acc).2.filter isRead).length ≤ l.length := by
  induction l with
  | nil => intro acc; simp [frameLoop]
  | cons a rest ih =>
    intro acc
    rw [frameLoop]
    by_cases hc : ((camRead a).1 && (camRead a).2.isSome) = true
    · simp [hc, isRead]
    · simp only [hc, if_false, Bool.false_eq_true, List.filter, isRead, List.length]
      exact Nat.succ_le_succ (ih _)

/-- The platform-dependent backend selector of `app.py` lines 146-149. -/
def backendOf (isWindows : Bool) : CapBackend :=
  if isWindows then CapBackend.dshow else CapBackend.any

/-- Exhaustive case analysis of the `/capture-emotion` handler: upload
branch, camera-open failure, frame-capture failure, or camera success. -/
theorem capture_emotion_cases {Frame : Type} (env : Env Frame) :
    (env.postWithFile = true ∧
      capture_emotion env =
        analyzeBlock env (uploadedImagePath env.now) env.uploadRead
          (fsWrite env.initFs (uploadedImagePath env.now))
          [Ev.saveUpload (uploadedImagePath env.now)]) ∨
    (env.postWithFile = false ∧ env.camOpened = false ∧
      capture_emotion env =
        { status := 500, body := [("error", JVal.s "Failed to open camera")],
          fs := env.initFs, events := [Ev.openCamera 0 (backendOf env.isWindows)] }) ∨
    (env.postWithFile = false ∧ env.camOpened = true ∧
      (frameLoop env.camRead [0, 1, 2] none).1 = none ∧
      capture_emotion env =
        { status := 500,
          body := [("error", JVal.s "Failed to capture frame after multiple attempts")],
          fs := env.initFs,
          events := [Ev.openCamera 0 (backendOf env.isWindows)] ++
            (frameLoop env.camRead [0, 1, 2] none).2 ++ [Ev.releaseCamera] }) ∨
    (∃ f, env.postWithFile = false ∧ env.camOpened = true ∧
      (frameLoop env.camRead [0, 1, 2] none).1 = some f ∧
      capture_emotion env =
        analyzeBlock env (capturedImagePath env.now) (some f)
          (fsWrite env.initFs (capturedImagePath env.now))
          (([Ev.openCamera 0 (backendOf env.isWindows)] ++
            (frameLoop env.camRead [0, 1, 2] none).2 ++ [Ev.releaseCamera]) ++
            [Ev.imwrite (capturedImagePath env.now)])) := by
  by_cases hp : env.postWithFile = true
  · exact Or.inl ⟨hp, by simp [capture_emotion, hp]⟩
  · rw [Bool.not_eq_true] at hp
    by_cases hc : env.camOpened = true
    · cases hf : (frameLoop env.camRead [0, 1, 2] none).1 with
      | none =>
        refine Or.inr (Or.inr (Or.inl ⟨hp, hc, rfl, ?_⟩))
        simp [capture_emotion, backendOf, hp, hc, hf]
      | some f =>
        refine Or.inr (Or.inr (Or.inr ⟨f, hp, hc, rfl, ?_⟩))
        simp [capture_emotion, backendOf, hp, hc, hf]
    · rw [Bool.not_eq_true] at hc
      refine Or.inr (Or.inl ⟨hp, hc, ?_⟩)
      simp [capture_emotion, backendOf, hp, hc]

theorem analyzeLegacy_ok (analyze : String → Except String (List FaceAnalysis))
    (img : String) (r : String × List (String × ℚ) × String)
    (h : analyzeLegacy analyze img = Except.ok r) :
    ∃ a rest, analyze otherImagePath = Except.ok (a :: rest) ∧
      r = (a.dominant_emotion, a.emotion, img) := by
  unfold analyzeLegacy at h
  cases hA : analyze otherImagePath with
  | error e => rw [hA] at h; simp at h
  | ok l =>
    rw [hA] at h
    simp only [except_bind_ok] at h
    cases l with
    | nil => simp [getFirst] at h
    | cons a rest =>
      simp only [getFirst, except_bind_ok, Except.ok.injEq] at h
      exact ⟨a, rest, rfl, h.symm⟩

/-- Exhaustive case analysis of the `Other/app.py` handler. -/
theorem other_capture_emotion_cases {Frame : Type} (env : OEnv Frame) :
    (env.camRet = false ∧
      other_capture_emotion env =
        { status := 500, body := [("error", JVal.s "Failed to capture image")],
          fs := env.initFs,
          events := [Ev.openCamera 0 CapBackend.any, Ev.readFrame 0,
            Ev.releaseCamera] }) ∨
    (∃ e, env.camRet = true ∧
      analyzeLegacy env.analyze (env.b64encode (env.imencode env.camFrame)) =
        Except.error e ∧
      other_capture_emotion env =
        { status := 500, body := [("error", JVal.s ("Error during analysis: " ++ e))],
          fs := fsWrite env.initFs otherImagePath,
          events := [Ev.openCamera 0 CapBackend.any, Ev.readFrame 0,
            Ev.imwrite otherImagePath, Ev.analyzeCall otherImagePath otherAnalyzeArgs,
            Ev.releaseCamera] }) ∨
    (∃ r, env.camRet = true ∧
      analyzeLegacy env.analyze (env.b64encode (env.imencode env.camFrame)) =
        Except.ok r ∧
      other_capture_emotion env =
        { status := 200,
          body := [("dominant_emotion", JVal.s r.1), ("emotion_scores", JVal.dict r.2.1),
            ("captured_image", JVal.s r.2.2)],
          fs := fsRemove (fsWrite env.initFs otherImagePath) otherImagePath,
          events := [Ev.openCamera 0 CapBackend.any, Ev.readFrame 0,
            Ev.imwrite otherImagePath, Ev.analyzeCall otherImagePath otherAnalyzeArgs,
            Ev.removeFile otherImagePath, Ev.releaseCamera] }) := by
  by_cases hr : env.camRet = true
  · cases hres : analyzeLegacy env.analyze (env.b64encode (env.imencode env.camFrame)) with
    | error e =>
      refine Or.inr (Or.inl ⟨e, hr, rfl, ?_⟩)
      simp [other_capture_emotion, hr, hres]
    | ok r =>
      refine Or.inr (Or.inr ⟨r, hr, rfl, ?_⟩)
      simp [other_capture_emotion, hr, hres, mem_fsWrite]
  · rw [Bool.not_eq_true] at hr
    refine Or.inl ⟨hr, ?_⟩
    simp [other_capture_emotion, hr]

/-- Exhaustive case analysis of the `Other/app1.py` handler. -/
theorem other1_capture_emotion_cases {Frame : Type} (env : O1Env Frame) :
    (env.camRet = false ∧
      other1_capture_emotion env =
        { status := 500, body := [("error", JVal.s "Failed to capture image")],
          fs := env.initFs,
          events := [Ev.openCamera 0 CapBackend.any, Ev.readFrame 0,
            Ev.releaseCamera] }) ∨
    (env.camRet = true ∧ env.detect (env.cvtGray env.camFrame) = [] ∧
      other1_capture_emotion env =
        { status := 400, body := [("error", JVal.s "No face detected")],
          fs := env.initFs,
          events := [Ev.openCamera 0 CapBackend.any, Ev.readFrame 0,
            Ev.releaseCamera] }) ∨
    (∃ rect rects e, env.camRet = true ∧
      env.detect (env.cvtGray env.camFrame) = rect :: rects ∧
      analyzeLegacy env.analyze
        (env.b64encode (env.imencode (env.gammaLUT (env.crop env.camFrame rect)))) =
        Except.error e ∧
      other1_capture_emotion env =
        { status := 500, body := [("error", JVal.s ("Error during analysis: " ++ e))],
          fs := fsWrite env.initFs otherImagePath,
          events := [Ev.openCamera 0 CapBackend.any, Ev.readFrame 0,
            Ev.imwrite otherImagePath, Ev.analyzeCall otherImagePath other1AnalyzeArgs,
            Ev.releaseCamera] }) ∨
    (∃ rect rects r, env.camRet = true ∧
      env.detect (env.cvtGray env.camFrame) = rect :: rects ∧
      analyzeLegacy env.analyze
        (env.b64encode (env.imencode (env.gammaLUT (env.crop env.camFrame rect)))) =
        Except.ok r ∧
      other1_capture_emotion env =
        { status := 200,
          body := [("dominant_emotion", JVal.s r.1), ("emotion_scores", JVal.dict r.2.1),
            ("captured_image", JVal.s r.2.2)],
          fs := fsRemove (fsWrite env.initFs otherImagePath) otherImagePath,
          events := [Ev.openCamera 0 CapBackend.any, Ev.readFrame 0,
            Ev.imwrite otherImagePath, Ev.analyzeCall otherImagePath other1AnalyzeArgs,
            Ev.removeFile otherImagePath, Ev.releaseCamera] }) := by
  by_cases hr : env.camRet = true
  · cases hd : env.detect (env.cvtGray env.camFrame) with
    | nil =>
      refine Or.inr (Or.inl ⟨hr, rfl, ?_⟩)
      simp [other1_capture_emotion, hr, hd]
    | cons rect rects =>
      cases hres : analyzeLegacy env.analyze
          (env.b64encode (env.imencode (env.gammaLUT (env.crop env.camFrame rect)))) with
      | error e =>
        refine Or.inr (Or.inr (Or.inl ⟨rect, rects, e, hr, rfl, hres, ?_⟩))
        simp [other1_capture_emotion, hr, hd, hres]
      | ok r =>
        refine Or.inr (Or.inr (Or.inr ⟨rect, rects, r, hr, rfl, hres, ?_⟩))
        simp [other1_capture_emotion, hr, hd, hres, mem_fsWrite]
  · rw [Bool.not_eq_true] at hr
    refine Or.inl ⟨hr, ?_⟩
    simp [other1_capture_emotion, hr]

/-- When every read attempt yields no frame, the loop performs exactly
three reads, each followed by the fixed 0.5 s delay, and ends with no
frame. -/
theorem frameLoop_all_fail {Frame : Type} (camRead : ℕ → Bool × Option Frame)
    (h : ∀ i, i < 3 → (camRead i).2 = none) :
    frameLoop camRead [0, 1, 2] none =
      (none, [Ev.readFrame 0, Ev.sleep (1 / 2), Ev.readFrame 1, Ev.sleep (1 / 2),
        Ev.readFrame 2, Ev.sleep (1 / 2)]) := by
  have h0 := h 0 (by norm_num)
  have h1 := h 1 (by norm_num)
  have h2 := h 2 (by norm_num)
  simp [frameLoop, h0, h1, h2]

theorem frameLoop_no_analyzeCall {Frame : Type} (camRead : ℕ → Bool × Option Frame)
    (l : List ℕ) (acc : Option Frame) (p : String) (args : AnalyzeArgs) :
    Ev.analyzeCall p args ∉ (frameLoop camRead l acc).2 := by
  intro h
  rcases frameLoop_events_mem camRead l acc _ h with ⟨a, ha⟩ | ha <;> simp at ha

/-- Concrete environment: camera path, all reads succeed, analyzer returns
a single result with a sad score above the threshold. -/
def envCamOk : Env ℕ :=
  { isWindows := false, postWithFile := false, now := 5, uploadRead := none,
    camOpened := true, camRead := fun _ => (true, some 7),
    analyze := fun _ => Except.ok
      [{ emotion := [("sad", 40), ("angry", 10)], dominant_emotion := "happy" }],
    imencode := fun f => [f], b64encode := fun _ => "B64",
    encodeNoneMsg := "imencode of None", initFs := [] }

/-- Concrete environment: the camera fails to open. -/
def envOpenFail : Env ℕ :=
  { envCamOk with camOpened := false }

/-- Concrete environment: the camera opens but every read fails. -/
def envReadFail : Env ℕ :=
  { envCamOk with camRead := fun _ => (false, none) }

/-- Concrete environment: the camera path succeeds, the analyzer raises. -/
def envAnalyzeFail : Env ℕ :=
  { envCamOk with analyze := fun _ => Except.error "boom" }

/-- Concrete `Other/app.py` environment: read succeeds, analyzer raises. -/
def oenvRaise : OEnv ℕ :=
  { camRet := true, camFrame := 3, analyze := fun _ => Except.error "boom",
    imencode := fun f => [f], b64encode := fun _ => "IMG", initFs := [] }

/-- Concrete `Other/app.py` environment: read succeeds, analyzer returns a
single result. -/
def oenvOk : OEnv ℕ :=
  { oenvRaise with
    analyze := fun _ =>
      Except.ok [{ emotion := [("sad", 2), ("angry", 1)], dominant_emotion := "neutral" }] }

/-- Concrete `Other/app1.py` environment: read succeeds, no face found. -/
def o1envNoFace : O1Env ℕ :=
  { camRet := true, camFrame := 0, cvtGray := fun f => f, detect := fun _ => [],
    crop := fun f _ => f, gammaLUT := fun f => f,
    analyze := fun _ => Except.error "unused", imencode := fun f => [f],
    b64encode := fun _ => "IMG", initFs := [] }

/-- C10: in the `Other/app1.py` variant, when the camera read succeeds but
the Haar cascade detects no face in the grayscale frame, the handler
returns status 400 with error "No face detected" and releases the camera;
its trace contains no temp-file write and no analyzer call, and the
filesystem is unchanged. -/
theorem c10_no_face_short_circuit {Frame : Type} (env : O1Env Frame)
    (hret : env.camRet = true)
    (hfaces : env.detect (env.cvtGray env.camFrame) = []) :
    (other1_capture_emotion env).status = 400 ∧
    (other1_capture_emotion env).body = [("error", JVal.s "No face detected")] ∧
    (other1_capture_emotion env).fs = env.initFs ∧
    (other1_capture_emotion env).events =
      [Ev.openCamera 0 CapBackend.any, Ev.readFrame 0, Ev.releaseCamera] := by
  simp [other1_capture_emotion, hret, hfaces]

/-- Witness: `c10_no_face_short_circuit` at a concrete environment. -/
theorem c10_no_face_short_circuit_witness :
    (other1_capture_emotion o1envNoFace).status = 400 ∧
    (other1_capture_emotion o1envNoFace).body = [("error", JVal.s "No face detected")] ∧
    (other1_capture_emotion o1envNoFace).fs = o1envNoFace.initFs ∧
    (other1_capture_emotion o1envNoFace).events =
      [Ev.openCamera 0 CapBackend.any, Ev.readFrame 0, Ev.releaseCamera] :=
  c10_no_face_short_circuit o1envNoFace rfl rfl

/-- C8 counterexample: in `app.py`, when `isOpened()` is false the handler
returns without calling `webcam.release()`: the trace of this concrete
request contains the open event but no release event. -/
theorem c8_counterexample_no_release_on_open_failure :
    (capture_emotion envOpenFail).status = 500 ∧
    Ev.openCamera 0 CapBackend.any ∈ (capture_emotion envOpenFail).events ∧
    Ev.releaseCamera ∉ (capture_emotion envOpenFail).events := by decide

/-- C8 (amended): after a successful open, the camera is released before
return on every exit path of `app.py` (capture failure, analyzer failure,
success), and the `Other` variants release the camera on every exit path;
when the open fails, `app.py` returns without releasing. -/
theorem c8_release_after_successful_open :
    (∀ (Frame : Type) (env : Env Frame), env.postWithFile = false →
      env.camOpened = true → Ev.releaseCamera ∈ (capture_emotion env).events) ∧
    (∀ (Frame : Type) (env : OEnv Frame),
      Ev.releaseCamera ∈ (other_capture_emotion env).events) ∧
    (∀ (Frame : Type) (env : O1Env Frame),
      Ev.releaseCamera ∈ (other1_capture_emotion env).events) := by
  refine ⟨?_, ?_, ?_⟩
  · intro Frame env hp hc
    rcases capture_emotion_cases env with ⟨hpf, _⟩ | ⟨_, hcf, _⟩ | ⟨_, _, _, heq⟩ |
      ⟨f, _, _, _, heq⟩
    · rw [hp] at hpf; cases hpf
    · rw [hc] at hcf; cases hcf
    · rw [heq]; simp
    · rw [heq, analyzeBlock_events]; simp
  · intro Frame env
    rcases other_capture_emotion_cases env with ⟨_, heq⟩ | ⟨e, _, _, heq⟩ |
      ⟨r, _, _, heq⟩ <;> rw [heq] <;> simp
  · intro Frame env
    rcases other1_capture_emotion_cases env with ⟨_, heq⟩ | ⟨_, _, heq⟩ |
      ⟨rect, rects, e, _, _, _, heq⟩ | ⟨rect, rects, r, _, _, _, heq⟩ <;>
      rw [heq] <;> simp

/-- Witness: the release parts of `c8_release_after_successful_open` at
concrete environments. -/
theorem c8_release_after_successful_open_witness :
    Ev.releaseCamera ∈ (capture_emotion envReadFail).events ∧
    Ev.releaseCamera ∈ (other_capture_emotion oenvRaise).events :=
  ⟨c8_release_after_successful_open.1 ℕ envReadFail rfl rfl,
    c8_release_after_successful_open.2.1 ℕ oenvRaise⟩

/-- C4: with no uploaded image, `app.py` opens camera index 0 with the
platform-appropriate backend, performs at most 3 read attempts, returns a
500 error when the device does not open or when no attempt yields a frame,
and in the all-fail case the trace is exactly open, three reads each
followed by the fixed 0.5-second delay, then release — no further retry. -/
theorem c4_camera_acquisition {Frame : Type} (env : Env Frame)
    (hp : env.postWithFile = false) :
    ((capture_emotion env).events.filter isRead).length ≤ 3 ∧
    Ev.openCamera 0 (backendOf env.isWindows) ∈ (capture_emotion env).events ∧
    (env.camOpened = false →
      capture_emotion env =
        { status := 500, body := [("error", JVal.s "Failed to open camera")],
          fs := env.initFs, events := [Ev.openCamera 0 (backendOf env.isWindows)] }) ∧
    (env.camOpened = true → (∀ i, i < 3 → (env.camRead i).2 = none) →
      capture_emotion env =
        { status := 500,
          body := [("error", JVal.s "Failed to capture frame after multiple attempts")],
          fs := env.initFs,
          events := [Ev.openCamera 0 (backendOf env.isWindows), Ev.readFrame 0,
            Ev.sleep (1 / 2), Ev.readFrame 1, Ev.sleep (1 / 2), Ev.readFrame 2,
            Ev.sleep (1 / 2), Ev.releaseCamera] }) := by
  rcases capture_emotion_cases env with ⟨hpf, _⟩ | ⟨_, hc, heq⟩ | ⟨_, hc, hf, heq⟩ |
    ⟨f, _, hc, hf, heq⟩
  · rw [hp] at hpf; cases hpf
  · refine ⟨?_, ?_, fun _ => heq, fun hco _ => ?_⟩
    · rw [heq]; simp [isRead]
    · rw [heq]; simp
    · rw [hco] at hc; cases hc
  · have hcount := frameLoop_readCount env.camRead [0, 1, 2] none
    refine ⟨?_, ?_, fun hco => ?_, fun _ hnone => ?_⟩
    · rw [heq]
      simpa [isRead, List.filter_append] using hcount
    · rw [heq]; simp
    · rw [hco] at hc; cases hc
    · have hl := frameLoop_all_fail env.camRead hnone
      rw [heq, hl]
      simp
  · have hcount := frameLoop_readCount env.camRead [0, 1, 2] none
    refine ⟨?_, ?_, fun hco => ?_, fun _ hnone => ?_⟩
    · rw [heq, analyzeBlock_events,
        if_pos (mem_fsWrite env.initFs (capturedImagePath env.now))]
      simpa [isRead, List.filter_append] using hcount
    · rw [heq, analyzeBlock_events]; simp
    · rw [hco] at hc; cases hc
    · have hl := frameLoop_all_fail env.camRead hnone
      rw [hl] at hf
      simp at hf

/-- Witness: `c4_camera_acquisition` at a concrete environment whose camera
opens but never yields a frame. -/
theorem c4_camera_acquisition_witness :
    ((capture_emotion envReadFail).events.filter isRead).length ≤ 3 ∧
    capture_emotion envReadFail =
      { status := 500,
        body := [("error", JVal.s "Failed to capture frame after multiple attempts")],
        fs := envReadFail.initFs,
        events := [Ev.openCamera 0 (backendOf envReadFail.isWindows), Ev.readFrame 0,
          Ev.sleep (1 / 2), Ev.readFrame 1, Ev.sleep (1 / 2), Ev.readFrame 2,
          Ev.sleep (1 / 2), Ev.releaseCamera] } :=
  ⟨(c4_camera_acquisition envReadFail rfl).1,
    (c4_camera_acquisition envReadFail rfl).2.2.2 rfl (fun _ _ => rfl)⟩

/-- C5 counterexample: the `Other/app.py` invocation of the analyzer omits
`enforce_detection`, leaving the library default (enforcement enabled), so
it is not true that every invocation disables face-detection enforcement;
per the spec's description of the collaborator, a no-face image then fails
rather than producing best-effort scores. -/
theorem c5_counterexample_other_enforces_detection :
    Ev.analyzeCall otherImagePath otherAnalyzeArgs ∈
      (other_capture_emotion oenvRaise).events ∧
    otherAnalyzeArgs.enforce_detection = true ∧
    analyzerReturnsScores otherAnalyzeArgs false = false := by decide

/-- C5 (amended): every analyzer invocation in `app.py` requests the
"emotion" action with `enforce_detection=False`, so no-face inputs still
return best-effort scores; the `Other` variants leave enforcement at the
library default (enabled), so no-face inputs fail there. -/
theorem c5_enforce_detection_flags :
    (∀ (Frame : Type) (env : Env Frame) (p : String) (args : AnalyzeArgs),
      Ev.analyzeCall p args ∈ (capture_emotion env).events →
      args.actions = ["emotion"] ∧ args.enforce_detection = false ∧
      analyzerReturnsScores args false = true) ∧
    (∀ (Frame : Type) (env : OEnv Frame) (p : String) (args : AnalyzeArgs),
      Ev.analyzeCall p args ∈ (other_capture_emotion env).events →
      args = otherAnalyzeArgs ∧ analyzerReturnsScores args false = false) ∧
    (∀ (Frame : Type) (env : O1Env Frame) (p : String) (args : AnalyzeArgs),
      Ev.analyzeCall p args ∈ (other1_capture_emotion env).events →
      args = other1AnalyzeArgs ∧ analyzerReturnsScores args false = false) := by
  refine ⟨?_, ?_, ?_⟩
  · intro Frame env p args h
    rcases capture_emotion_cases env with ⟨_, heq⟩ | ⟨_, _, heq⟩ | ⟨_, _, _, heq⟩ |
      ⟨f, _, _, _, heq⟩
    · rw [heq, analyzeBlock_events,
        if_pos (mem_fsWrite env.initFs (uploadedImagePath env.now))] at h
      simp at h
      rw [h.2]; exact ⟨rfl, rfl, rfl⟩
    · rw [heq] at h; simp at h
    · rw [heq] at h
      simp at h
      exact absurd h (frameLoop_no_analyzeCall env.camRead [0, 1, 2] none p args)
    · rw [heq, analyzeBlock_events,
        if_pos (mem_fsWrite env.initFs (capturedImagePath env.now))] at h
      simp at h
      rcases h with h | h
      · exact absurd h (frameLoop_no_analyzeCall env.camRead [0, 1, 2] none p args)
      · rw [h.2]; exact ⟨rfl, rfl, rfl⟩
  · intro Frame env p args h
    rcases other_capture_emotion_cases env with ⟨_, heq⟩ | ⟨e, _, _, heq⟩ |
      ⟨r, _, _, heq⟩ <;> rw [heq] at h <;> simp at h
    · exact ⟨h.2, by rw [h.2]; rfl⟩
    · exact ⟨h.2, by rw [h.2]; rfl⟩
  · intro Frame env p args h
    rcases other1_capture_emotion_cases env with ⟨_, heq⟩ | ⟨_, _, heq⟩ |
      ⟨rect, rects, e, _, _, _, heq⟩ | ⟨rect, rects, r, _, _, _, heq⟩ <;>
      rw [heq] at h <;> simp at h
    · exact ⟨h.2, by rw [h.2]; rfl⟩
    · exact ⟨h.2, by rw [h.2]; rfl⟩

/-- Witness: the `app.py` part of `c5_enforce_detection_flags` at a
concrete request whose trace contains the analyzer call. -/
theorem c5_enforce_detection_flags_witness :
    appAnalyzeArgs.actions = ["emotion"] ∧ appAnalyzeArgs.enforce_detection = false ∧
    analyzerReturnsScores appAnalyzeArgs false = true :=
  c5_enforce_detection_flags.1 ℕ envCamOk "captured_image_5.jpg" appAnalyzeArgs
    (by decide)

theorem frameLoop_no_imwrite {Frame : Type} (camRead : ℕ → Bool × Option Frame)
    (l : List ℕ) (acc : Option Frame) (p : String) :
    Ev.imwrite p ∉ (frameLoop camRead l acc).2 := by
  intro h
  rcases frameLoop_events_mem camRead l acc _ h with ⟨a, ha⟩ | ha <;> simp at ha

theorem frameLoop_no_saveUpload {Frame : Type} (camRead : ℕ → Bool × Option Frame)
    (l : List ℕ) (acc : Option Frame) (p : String) :
    Ev.saveUpload p ∉ (frameLoop camRead l acc).2 := by
  intro h
  rcases frameLoop_events_mem camRead l acc _ h with ⟨a, ha⟩ | ha <;> simp at ha

theorem analyzeResult_of_analyze_error {Frame : Type} (env : Env Frame)
    (p : String) (frame : Option Frame) (e : String)
    (hA : env.analyze p = Except.error e) :
    analyzeResult env p frame = Except.error e := by
  unfold analyzeResult
  rw [hA]
  rfl

theorem analyzeBlock_error {Frame : Type} (env : Env Frame) (p : String)
    (frame : Option Frame) (fs : List String) (evs : List Ev) (e : String)
    (h : analyzeResult env p frame = Except.error e) :
    (analyzeBlock env p frame fs evs).status = 500 ∧
    (analyzeBlock env p frame fs evs).body =
      [("error", JVal.s ("Error during analysis: " ++ e))] := by
  unfold analyzeBlock
  rw [h]
  exact ⟨rfl, rfl⟩

/-- When the analyzer (as a mock whose answer does not depend on the path)
returns `a :: rest` and the handler succeeds, the response body is the
success triple built from `a`'s raw scores, with the dominant label the one
produced by the threshold override. -/
theorem capture_emotion_success_shape {Frame : Type} (env : Env Frame)
    (a : FaceAnalysis) (rest : List FaceAnalysis)
    (hA : ∀ q, env.analyze q = Except.ok (a :: rest))
    (h200 : (capture_emotion env).status = 200) :
    ∃ dom img, overrideDominant a.emotion a.dominant_emotion = Except.ok dom ∧
      (capture_emotion env).body = successBody dom a.emotion img := by
  rcases capture_emotion_cases env with ⟨_, heq⟩ | ⟨_, _, heq⟩ | ⟨_, _, _, heq⟩ |
    ⟨f, _, _, _, heq⟩
  · rw [heq] at h200 ⊢
    rcases analyzeBlock_shape env (uploadedImagePath env.now) env.uploadRead
      (fsWrite env.initFs (uploadedImagePath env.now))
      [Ev.saveUpload (uploadedImagePath env.now)] with ⟨hs, hb⟩ | ⟨hs, m, hb⟩
    · rcases analyzeResult_ok _ _ _ _ hb.symm with ⟨a', rest', dom, f', hA', hD, _, hbody⟩
      have hinj := (hA (uploadedImagePath env.now)).symm.trans hA'
      simp only [Except.ok.injEq, List.cons.injEq] at hinj
      obtain ⟨ha, -⟩ := hinj
      subst ha
      exact ⟨dom, env.b64encode (env.imencode f'), hD, hbody⟩
    · rw [hs] at h200; exact absurd h200 (by decide)
  · rw [heq] at h200; simp at h200
  · rw [heq] at h200; simp at h200
  · rw [heq] at h200 ⊢
    rcases analyzeBlock_shape env (capturedImagePath env.now) (some f)
      (fsWrite env.initFs (capturedImagePath env.now))
      (([Ev.openCamera 0 (backendOf env.isWindows)] ++
        (frameLoop env.camRead [0, 1, 2] none).2 ++ [Ev.releaseCamera]) ++
        [Ev.imwrite (capturedImagePath env.now)]) with ⟨hs, hb⟩ | ⟨hs, m, hb⟩
    · rcases analyzeResult_ok _ _ _ _ hb.symm with ⟨a', rest', dom, f', hA', hD, _, hbody⟩
      have hinj := (hA (capturedImagePath env.now)).symm.trans hA'
      simp only [Except.ok.injEq, List.cons.injEq] at hinj
      obtain ⟨ha, -⟩ := hinj
      subst ha
      exact ⟨dom, env.b64encode (env.imencode f'), hD, hbody⟩
    · rw [hs] at h200; exact absurd h200 (by decide)

/-- C1: the threshold override on the dominant label — when the request
succeeds with the analyzer returning first result `a`, the reported
dominant emotion is "sad" when `a`'s sad score exceeds 30, else "angry"
when its angry score exceeds 30, else exactly the analyzer's own dominant
pick. -/
theorem c1_threshold_override {Frame : Type} (env : Env Frame)
    (a : FaceAnalysis) (rest : List FaceAnalysis) (s ag : ℚ)
    (hA : ∀ q, env.analyze q = Except.ok (a :: rest))
    (hs : a.emotion.lookup "sad" = some s)
    (hag : a.emotion.lookup "angry" = some ag)
    (h200 : (capture_emotion env).status = 200) :
    (capture_emotion env).body.lookup "dominant_emotion" =
      some (JVal.s (if 30 < s then "sad" else if 30 < ag then "angry"
        else a.dominant_emotion)) := by
  obtain ⟨dom, img, hD, hbody⟩ := capture_emotion_success_shape env a rest hA h200
  rw [overrideDominant_eq a.emotion a.dominant_emotion s ag hs hag] at hD
  injection hD with hD
  rw [hbody, successBody, ← hD]
  rfl

/-- Witness: `c1_threshold_override` at a concrete request whose analyzer
mock reports `sad = 40 > 30` with dominant pick "happy". -/
theorem c1_threshold_override_witness :
    (capture_emotion envCamOk).body.lookup "dominant_emotion" =
      some (JVal.s (if (30 : ℚ) < 40 then "sad" else if (30 : ℚ) < 10 then "angry"
        else "happy")) :=
  c1_threshold_override envCamOk
    { emotion := [("sad", 40), ("angry", 10)], dominant_emotion := "happy" } []
    40 10 (fun q => rfl) rfl rfl (by decide)

/-- C9: the threshold post-processing changes only the label — the
`emotions` mapping in every successful response is the analyzer's raw
per-category score mapping, unchanged by the override rules. -/
theorem c9_raw_scores_unchanged {Frame : Type} (env : Env Frame)
    (a : FaceAnalysis) (rest : List FaceAnalysis)
    (hA : ∀ q, env.analyze q = Except.ok (a :: rest))
    (h200 : (capture_emotion env).status = 200) :
    (capture_emotion env).body.lookup "emotions" = some (JVal.dict a.emotion) := by
  obtain ⟨dom, img, _, hbody⟩ := capture_emotion_success_shape env a rest hA h200
  rw [hbody]
  rfl

/-- Witness: `c9_raw_scores_unchanged` at a concrete request; the override
fires (sad = 40 > 30) yet the mapping is returned verbatim. -/
theorem c9_raw_scores_unchanged_witness :
    (capture_emotion envCamOk).body.lookup "emotions" =
      some (JVal.dict [("sad", 40), ("angry", 10)]) :=
  c9_raw_scores_unchanged envCamOk
    { emotion := [("sad", 40), ("angry", 10)], dominant_emotion := "happy" } []
    (fun q => rfl) (by decide)

/-- C7 counterexample: a successful `Other/app.py` request returns 200 but
its payload carries no `emotions` key — the score mapping is under the key
`emotion_scores`. -/
theorem c7_counterexample_other_key_name :
    (other_capture_emotion oenvOk).status = 200 ∧
    (other_capture_emotion oenvOk).body.lookup "emotions" = none ∧
    (other_capture_emotion oenvOk).body.lookup "emotion_scores" =
      some (JVal.dict [("sad", 2), ("angry", 1)]) := by decide

/-- C7 (amended): every successful `app.py` response carries exactly the
keys `dominant_emotion`, `emotions` (the analyzer's raw mapping) and
`captured_image`, and every failure carries a single `error` field; the
`Other/app.py` variant has the same shape except that the score mapping is
keyed `emotion_scores` instead of `emotions`. -/
theorem c7_payload_shapes :
    (∀ (Frame : Type) (env : Env Frame) (a : FaceAnalysis) (rest : List FaceAnalysis),
      (∀ q, env.analyze q = Except.ok (a :: rest)) →
      (capture_emotion env).status = 200 →
      ∃ dom img, (capture_emotion env).body = successBody dom a.emotion img) ∧
    (∀ (Frame : Type) (env : Env Frame), (capture_emotion env).status ≠ 200 →
      ∃ m, (capture_emotion env).body = [("error", JVal.s m)]) ∧
    (∀ (Frame : Type) (env : OEnv Frame) (a : FaceAnalysis) (rest : List FaceAnalysis),
      (∀ q, env.analyze q = Except.ok (a :: rest)) →
      (other_capture_emotion env).status = 200 →
      ∃ img, (other_capture_emotion env).body =
        [("dominant_emotion", JVal.s a.dominant_emotion),
          ("emotion_scores", JVal.dict a.emotion), ("captured_image", JVal.s img)]) ∧
    (∀ (Frame : Type) (env : OEnv Frame), (other_capture_emotion env).status ≠ 200 →
      ∃ m, (other_capture_emotion env).body = [("error", JVal.s m)]) := by
  refine ⟨?_, ?_, ?_, ?_⟩
  · intro Frame env a rest hA h200
    obtain ⟨dom, img, -, hbody⟩ := capture_emotion_success_shape env a rest hA h200
    exact ⟨dom, img, hbody⟩
  · intro Frame env hne
    rcases capture_emotion_cases env with ⟨_, heq⟩ | ⟨_, _, heq⟩ | ⟨_, _, _, heq⟩ |
      ⟨f, _, _, _, heq⟩
    · rw [heq] at hne ⊢
      rcases analyzeBlock_shape env (uploadedImagePath env.now) env.uploadRead
        (fsWrite env.initFs (uploadedImagePath env.now))
        [Ev.saveUpload (uploadedImagePath env.now)] with ⟨hs, _⟩ | ⟨_, m, hb⟩
      · exact absurd hs hne
      · exact ⟨m, hb⟩
    · rw [heq]; exact ⟨"Failed to open camera", rfl⟩
    · rw [heq]; exact ⟨"Failed to capture frame after multiple attempts", rfl⟩
    · rw [heq] at hne ⊢
      rcases analyzeBlock_shape env (capturedImagePath env.now) (some f)
        (fsWrite env.initFs (capturedImagePath env.now))
        (([Ev.openCamera 0 (backendOf env.isWindows)] ++
          (frameLoop env.camRead [0, 1, 2] none).2 ++ [Ev.releaseCamera]) ++
          [Ev.imwrite (capturedImagePath env.now)]) with ⟨hs, _⟩ | ⟨_, m, hb⟩
      · exact absurd hs hne
      · exact ⟨m, hb⟩
  · intro Frame env a rest hA h200
    rcases other_capture_emotion_cases env with ⟨_, heq⟩ | ⟨e, _, _, heq⟩ |
      ⟨r, _, hres, heq⟩
    · rw [heq] at h200; simp at h200
    · rw [heq] at h200; simp at h200
    · rcases analyzeLegacy_ok _ _ _ hres with ⟨a', rest', hA', hr⟩
      have hinj := (hA otherImagePath).symm.trans hA'
      simp only [Except.ok.injEq, List.cons.injEq] at hinj
      obtain ⟨ha, -⟩ := hinj
      subst ha
      rw [heq, hr]
      exact ⟨env.b64encode (env.imencode env.camFrame), rfl⟩
  · intro Frame env hne
    rcases other_capture_emotion_cases env with ⟨_, heq⟩ | ⟨e, _, _, heq⟩ |
      ⟨r, _, _, heq⟩
    · rw [heq]; exact ⟨"Failed to capture image", rfl⟩
    · rw [heq]; exact ⟨"Error during analysis: " ++ e, rfl⟩
    · rw [heq] at hne; simp at hne

/-- Witness: `c7_payload_shapes` at concrete requests — a failing `app.py`
request has an `error` field, and a successful `Other/app.py` request has a
`dominant_emotion` field. -/
theorem c7_payload_shapes_witness :
    ((capture_emotion envOpenFail).body.lookup "error").isSome = true ∧
    ((other_capture_emotion oenvOk).body.lookup "dominant_emotion").isSome = true := by
  constructor
  · obtain ⟨m, hm⟩ := c7_payload_shapes.2.1 ℕ envOpenFail (by decide)
    rw [hm]; rfl
  · obtain ⟨img, hm⟩ := c7_payload_shapes.2.2.1 ℕ oenvOk
      { emotion := [("sad", 2), ("angry", 1)], dominant_emotion := "neutral" } []
      (fun q => rfl) (by decide)
    rw [hm]; rfl

/-- C2 counterexample: in `Other/app.py`, when the analyzer raises, the
handler returns the 500 error carrying the analyzer's message but the temp
file `captured_image.jpg` it wrote still exists when it returns. -/
theorem c2_counterexample_other_leaks_temp_file :
    (other_capture_emotion oenvRaise).status = 500 ∧
    (other_capture_emotion oenvRaise).body =
      [("error", JVal.s "Error during analysis: boom")] ∧
    Ev.imwrite otherImagePath ∈ (other_capture_emotion oenvRaise).events ∧
    otherImagePath ∈ (other_capture_emotion oenvRaise).fs := by decide

/-- C2 (amended): in `app.py` every temp file created during handling is
deleted before the handler returns, on every exit path, and an analyzer
failure yields the 500 response carrying the analyzer's message; the
`Other/app.py` variant deletes its temp file only on the success path —
when the analyzer raises, the error response is returned with the temp
file still on disk. -/
theorem c2_temp_file_cleanup :
    (∀ (Frame : Type) (env : Env Frame) (p : String),
      (Ev.imwrite p ∈ (capture_emotion env).events ∨
        Ev.saveUpload p ∈ (capture_emotion env).events) →
      p ∉ (capture_emotion env).fs) ∧
    (∀ (Frame : Type) (env : Env Frame) (e : String),
      (∀ q, env.analyze q = Except.error e) →
      ∀ p args, Ev.analyzeCall p args ∈ (capture_emotion env).events →
      (capture_emotion env).status = 500 ∧
      (capture_emotion env).body =
        [("error", JVal.s ("Error during analysis: " ++ e))]) ∧
    (∀ (Frame : Type) (env : OEnv Frame),
      (other_capture_emotion env).status = 200 →
      otherImagePath ∉ (other_capture_emotion env).fs) := by
  refine ⟨?_, ?_, ?_⟩
  · intro Frame env p hmem
    rcases capture_emotion_cases env with ⟨_, heq⟩ | ⟨_, _, heq⟩ | ⟨_, _, _, heq⟩ |
      ⟨f, _, _, _, heq⟩
    · rw [heq, analyzeBlock_events,
        if_pos (mem_fsWrite env.initFs (uploadedImagePath env.now))] at hmem
      rw [heq, analyzeBlock_fs,
        if_pos (mem_fsWrite env.initFs (uploadedImagePath env.now))]
      have hp : p = uploadedImagePath env.now := by
        rcases hmem with h | h <;> simp at h
        exact h
      rw [hp]
      exact not_mem_fsRemove _ _
    · rw [heq] at hmem ⊢
      rcases hmem with h | h <;> simp at h
    · rw [heq] at hmem ⊢
      rcases hmem with h | h <;> simp at h
      · exact absurd h (frameLoop_no_imwrite env.camRead [0, 1, 2] none p)
      · exact absurd h (frameLoop_no_saveUpload env.camRead [0, 1, 2] none p)
    · rw [heq, analyzeBlock_events,
        if_pos (mem_fsWrite env.initFs (capturedImagePath env.now))] at hmem
      rw [heq, analyzeBlock_fs,
        if_pos (mem_fsWrite env.initFs (capturedImagePath env.now))]
      have hp : p = capturedImagePath env.now := by
        rcases hmem with h | h <;> simp at h
        · rcases h with h | h
          · exact absurd h (frameLoop_no_imwrite env.camRead [0, 1, 2] none p)
          · exact h
        · exact absurd h (frameLoop_no_saveUpload env.camRead [0, 1, 2] none p)
      rw [hp]
      exact not_mem_fsRemove _ _
  · intro Frame env e hA p args hmem
    rcases capture_emotion_cases env with ⟨_, heq⟩ | ⟨_, _, heq⟩ | ⟨_, _, _, heq⟩ |
      ⟨f, _, _, _, heq⟩
    · rw [heq]
      exact analyzeBlock_error env _ _ _ _ e
        (analyzeResult_of_analyze_error env _ _ e (hA _))
    · rw [heq] at hmem; simp at hmem
    · rw [heq] at hmem
      simp at hmem
      exact absurd hmem (frameLoop_no_analyzeCall env.camRead [0, 1, 2] none p args)
    · rw [heq]
      exact analyzeBlock_error env _ _ _ _ e
        (analyzeResult_of_analyze_error env _ _ e (hA _))
  · intro Frame env h200
    rcases other_capture_emotion_cases env with ⟨_, heq⟩ | ⟨e, _, _, heq⟩ |
      ⟨r, _, _, heq⟩
    · rw [heq] at h200; simp at h200
    · rw [heq] at h200; simp at h200
    · rw [heq]
      exact not_mem_fsRemove _ _

/-- Witness: `c2_temp_file_cleanup` at concrete requests — the camera-path
temp file of a successful `app.py` request is gone on return, and a request
whose analyzer always raises gets the 500 analysis-error payload. -/
theorem c2_temp_file_cleanup_witness :
    "captured_image_5.jpg" ∉ (capture_emotion envCamOk).fs ∧
    (capture_emotion envAnalyzeFail).status = 500 ∧
    (capture_emotion envAnalyzeFail).body =
      [("error", JVal.s ("Error during analysis: " ++ "boom"))] :=
  ⟨c2_temp_file_cleanup.1 ℕ envCamOk "captured_image_5.jpg" (Or.inl (by decide)),
    c2_temp_file_cleanup.2.1 ℕ envAnalyzeFail "boom" (fun q => rfl)
      "captured_image_5.jpg" appAnalyzeArgs (by decide)⟩

/-- Core's `Nat.toDigitsCore` in base 10, with enough fuel, produces the
reversed decimal digit list of `Nat.digits`, prepended to the accumulator. -/
theorem toDigitsCore_eq_digits (f : ℕ) : ∀ (n : ℕ) (ds : List Char), 0 < n → n < f →
    Nat.toDigitsCore 10 f n ds =
      ((Nat.digits 10 n).map Nat.digitChar).reverse ++ ds := by
  induction f with
  | zero => intro n ds _ hf; exact absurd hf (Nat.not_lt_zero n)
  | succ f ih =>
    intro n ds hn hf
    rw [show Nat.toDigitsCore 10 (f + 1) n ds =
      (if n / 10 = 0 then Nat.digitChar (n % 10) :: ds
        else Nat.toDigitsCore 10 f (n / 10) (Nat.digitChar (n % 10) :: ds)) from rfl]
    by_cases h0 : n / 10 = 0
    · rw [if_pos h0, Nat.digits_def' (by norm_num : (1 : ℕ) < 10) hn, h0]
      simp
    · rw [if_neg h0]
      have hn' : 0 < n / 10 := Nat.pos_of_ne_zero h0
      have hlt' : n / 10 < f := by
        have hlt : n / 10 < n := Nat.div_lt_self hn (by norm_num)
        omega
      rw [ih (n / 10) (Nat.digitChar (n % 10) :: ds) hn' hlt',
        Nat.digits_def' (by norm_num : (1 : ℕ) < 10) hn]
      simp

/-- For positive `n`, `Nat.repr n` is the reversed digit list of
`Nat.digits 10 n` rendered through `Nat.digitChar`. -/
theorem natRepr_eq (n : ℕ) (hn : 0 < n) :
    Nat.repr n = (((Nat.digits 10 n).map Nat.digitChar).reverse).asString := by
  show (Nat.toDigits 10 n).asString = _
  rw [show Nat.toDigits 10 n = Nat.toDigitsCore 10 (n + 1) n [] from rfl,
    toDigitsCore_eq_digits (n + 1) n [] hn (Nat.lt_succ_self n), List.append_nil]

theorem digitChar_inj_lt : ∀ a < 10, ∀ b < 10,
    Nat.digitChar a = Nat.digitChar b → a = b := by decide

theorem map_digitChar_inj : ∀ (l1 l2 : List ℕ), (∀ d ∈ l1, d < 10) →
    (∀ d ∈ l2, d < 10) → l1.map Nat.digitChar = l2.map Nat.digitChar → l1 = l2
  | [], [], _, _, _ => rfl
  | [], _ :: _, _, _, h => by simp at h
  | _ :: _, [], _, _, h => by simp at h
  | a :: l1, b :: l2, h1, h2, h => by
    simp only [List.map_cons, List.cons.injEq] at h
    have ha := digitChar_inj_lt a (h1 a (List.mem_cons_self a l1))
      b (h2 b (List.mem_cons_self b l2)) h.1
    rw [ha, map_digitChar_inj l1 l2 (fun d hd => h1 d (List.mem_cons_of_mem a hd))
      (fun d hd => h2 d (List.mem_cons_of_mem b hd)) h.2]

/-- Decimal rendering of naturals is injective. -/
theorem natRepr_injective : ∀ m n : ℕ, Nat.repr m = Nat.repr n → m = n := by
  have key : ∀ n : ℕ, 0 < n → Nat.repr n = "0" → False := by
    intro n hn h
    have hd : ((Nat.digits 10 n).map Nat.digitChar).reverse = ['0'] :=
      congrArg String.data ((natRepr_eq n hn).symm.trans h)
    have hmap : (Nat.digits 10 n).map Nat.digitChar = ['0'] := by
      have := congrArg List.reverse hd
      simpa using this
    have hdig : Nat.digits 10 n = [0] := by
      cases hD : Nat.digits 10 n with
      | nil => rw [hD] at hmap; simp at hmap
      | cons d rest =>
        rw [hD] at hmap
        simp only [List.map_cons, List.cons.injEq] at hmap
        have hd10 : d < 10 := Nat.digits_lt_base (by norm_num)
          (hD ▸ List.mem_cons_self d rest)
        have hrest : rest = [] := List.map_eq_nil_iff.mp hmap.2
        have hd0 : d = 0 := digitChar_inj_lt d hd10 0 (by norm_num) hmap.1
        rw [hrest, hd0]
    have := Nat.ofDigits_digits 10 n
    rw [hdig] at this
    simp [Nat.ofDigits] at this
    omega
  intro m n h
  rcases Nat.eq_zero_or_pos m with hm | hm <;> rcases Nat.eq_zero_or_pos n with hn | hn
  · rw [hm, hn]
  · exact absurd (h.symm.trans (by rw [hm]; rfl)) (fun hh => key n hn hh)
  · exact absurd (h.trans (by rw [hn]; rfl)) (fun hh => key m hm hh)
  · have h1 := (natRepr_eq m hm).symm.trans (h.trans (natRepr_eq n hn))
    have hd : ((Nat.digits 10 m).map Nat.digitChar).reverse =
        ((Nat.digits 10 n).map Nat.digitChar).reverse := congrArg String.data h1
    have hmap : (Nat.digits 10 m).map Nat.digitChar =
        (Nat.digits 10 n).map Nat.digitChar := by
      have := congrArg List.reverse hd
      simpa using this
    have hdig := map_digitChar_inj (Nat.digits 10 m) (Nat.digits 10 n)
      (fun d hd => Nat.digits_lt_base (by norm_num) hd)
      (fun d hd => Nat.digits_lt_base (by norm_num) hd) hmap
    have hm' := Nat.ofDigits_digits 10 m
    rw [hdig, Nat.ofDigits_digits 10 n] at hm'
    exact hm'.symm

/-- `toString` on nonnegative integers is injective. -/
theorem int_toString_inj_nonneg (a b : ℤ) (ha : 0 ≤ a) (hb : 0 ≤ b)
    (h : toString a = toString b) : a = b := by
  lift a to ℕ using ha with m
  lift b to ℕ using hb with k
  have hmk : Nat.repr m = Nat.repr k := h
  rw [natRepr_injective m k hmk]

theorem capturedImagePath_inj (a b : ℤ) (ha : 0 ≤ a) (hb : 0 ≤ b) (hne : a ≠ b) :
    capturedImagePath a ≠ capturedImagePath b := by
  intro h
  apply hne
  apply int_toString_inj_nonneg a b ha hb
  apply String.ext
  have hd := congrArg String.data h
  simp only [capturedImagePath, String.data_append, List.append_assoc] at hd
  exact List.append_cancel_right (List.append_cancel_left hd)

theorem uploadedImagePath_inj (a b : ℤ) (ha : 0 ≤ a) (hb : 0 ≤ b) (hne : a ≠ b) :
    uploadedImagePath a ≠ uploadedImagePath b := by
  intro h
  apply hne
  apply int_toString_inj_nonneg a b ha hb
  apply String.ext
  have hd := congrArg String.data h
  simp only [uploadedImagePath, String.data_append, List.append_assoc] at hd
  exact List.append_cancel_right (List.append_cancel_left hd)

/-- C6 counterexample: two distinct `Other/app.py` requests (one whose
analyzer succeeds, one whose analyzer raises) both persist their frames to
the very same path `captured_image.jpg`: the temp-file name embeds no
timestamp and is shared across requests. -/
theorem c6_counterexample_fixed_temp_name :
    Ev.imwrite "captured_image.jpg" ∈ (other_capture_emotion oenvOk).events ∧
    Ev.imwrite "captured_image.jpg" ∈ (other_capture_emotion oenvRaise).events ∧
    otherImagePath = "captured_image.jpg" := by decide

/-- C6 (amended): in `app.py` the temp-file names embed `int(time.time())`,
so two requests handled at least one second apart (at nonnegative clock
readings, where Python's `int()` truncation is the floor) use distinct temp
paths on both the camera and the upload branches; the `Other` variants
instead share the fixed name `captured_image.jpg` across all requests. -/
theorem c6_timestamped_paths (t1 t2 : ℚ) (h1 : 0 ≤ t1) (h12 : t1 + 1 ≤ t2) :
    capturedImagePath ⌊t1⌋ ≠ capturedImagePath ⌊t2⌋ ∧
    uploadedImagePath ⌊t1⌋ ≠ uploadedImagePath ⌊t2⌋ := by
  have hf1 : (0 : ℤ) ≤ ⌊t1⌋ := Int.floor_nonneg.mpr h1
  have hlt : ⌊t1⌋ < ⌊t2⌋ := by
    have h3 : ((⌊t1⌋ + 1 : ℤ) : ℚ) ≤ t2 := by
      push_cast
      have := Int.floor_le t1
      linarith
    have h4 := Int.le_floor.mpr h3
    omega
  have hf2 : (0 : ℤ) ≤ ⌊t2⌋ := le_trans hf1 (le_of_lt hlt)
  exact ⟨capturedImagePath_inj _ _ hf1 hf2 (ne_of_lt hlt),
    uploadedImagePath_inj _ _ hf1 hf2 (ne_of_lt hlt)⟩

/-- Witness: `c6_timestamped_paths` at clock readings 0 and 5 seconds. -/
theorem c6_timestamped_paths_witness :
    capturedImagePath ⌊(0 : ℚ)⌋ ≠ capturedImagePath ⌊(5 : ℚ)⌋ :=
  (c6_timestamped_paths 0 5 (by norm_num) (by norm_num)).1

/-- Concrete `/analyze-emotion` environment: a data-URI-prefixed 4-channel
image whose analyzer succeeds only on 3-channel input. -/
def aenvOk : AEnv :=
  { jsonBody := some [("image", "data:image/png;base64,QUJD")],
    decodeImage := fun s =>
      if s = "QUJD" then some { channels := 4, payload := 7 } else none,
    analyzeImg := fun img =>
      if img.channels = 3 then
        Except.ok { emotion := [("sad", 1)], dominant_emotion := "neutral" }
      else Except.error "alpha" }

/-- C3: the `/analyze-emotion` endpoint (modelled from the spec — no such
handler exists under `src/`) is a POST route accepting a JSON body with an
`image` field; it strips any data-URI scheme prefix before decoding,
converts 4-channel (alpha) images to 3-channel before persisting (and
leaves 3-channel images unchanged), and on success returns status 200 with
the `dominant_emotion` and `emotions` fields. -/
theorem c3_analyze_emotion_endpoint :
    analyzeEmotionRoute = "/analyze-emotion" ∧
    analyzeEmotionMethods = ["POST"] ∧
    (∀ p : String, stripDataURI ("data:image/jpeg;base64," ++ p) = p) ∧
    stripDataURI "iVBORw0KGgo" = "iVBORw0KGgo" ∧
    (∀ img : Img, img.channels = 4 → (toThreeChannel img).channels = 3) ∧
    (∀ img : Img, img.channels = 3 → toThreeChannel img = img) ∧
    (∀ (env : AEnv) (s : String) (img : Img) (a : FaceAnalysis),
      (env.jsonBody.bind fun b => b.lookup "image") = some s →
      env.decodeImage (stripDataURI s) = some img →
      env.analyzeImg (toThreeChannel img) = Except.ok a →
      analyze_emotion env = (200, [("dominant_emotion", JVal.s a.dominant_emotion),
        ("emotions", JVal.dict a.emotion)])) := by
  refine ⟨rfl, rfl, fun p => rfl, by decide, ?_, ?_, ?_⟩
  · intro img h; simp [toThreeChannel, h]
  · intro img h; simp [toThreeChannel, h]
  · intro env s img a hb hd ha
    simp [analyze_emotion, hb, hd, ha]

/-- Witness: `c3_analyze_emotion_endpoint` at a concrete request carrying a
data-URI-prefixed RGBA image. -/
theorem c3_analyze_emotion_endpoint_witness :
    analyze_emotion aenvOk = (200, [("dominant_emotion", JVal.s "neutral"),
      ("emotions", JVal.dict [("sad", 1)])]) :=
  c3_analyze_emotion_endpoint.2.2.2.2.2.2 aenvOk "data:image/png;base64,QUJD"
    { channels := 4, payload := 7 }
    { emotion := [("sad", 1)], dominant_emotion := "neutral" }
    (by decide) (by decide) rfl

end EmotionDetection
